import Mathlib

/-!
Shallow embedding of `packages/ember-runtime/lib/mixins/container_proxy.js`.

The mixin itself is a thin delegation layer: `lookup`, `factoryFor` and
`ownerInjection` forward to the owner's `__container__`, and `willDestroy`
first runs the `_super` chain and then, when a container is present,
schedules the container's `destroy`.  The Container / Registry mechanism the
mixin delegates to is not part of the given source file; where its behaviour
is needed it is modelled from the specification, and each such definition is
marked `Modelled from the spec:` in its doc comment.

JavaScript values are embedded as follows: object references become natural
numbers (reference equality is equality of the numbers), plain-object option
bags become Lean structures or association lists, an omitted / `undefined`
argument becomes `Option.none`, and exceptions become `Except` results.
-/

namespace ContainerProxy

/-- Options accepted by the Container's `lookup`: a bag with a `singleton`
boolean field. -/
structure LookupOptions where
  singleton : Bool
deriving DecidableEq, Repr

/-- A JavaScript-style plain-object property bag; the empty list models the
empty object literal.  The proxy's `factoryFor` never inspects this bag, it
only supplies the empty one when the caller omitted the argument. -/
abbrev PropBag := List (String × String)

/-- The operations a container object exposes to the proxy mixin.  The
result types and the lookup-option type are abstract parameters because the
proxy forwards them without inspecting them. -/
structure ContainerOps (OL L F O : Type) where
  lookup : String → OL → L
  factoryFor : String → PropBag → F
  ownerInjection : Unit → O

/-- Source `lookup(fullName, options)` of the mixin: it returns
`this.__container__.lookup(fullName, options)`, forwarding both arguments
unchanged (no default is applied by the proxy). -/
def lookup {OL L F O : Type} (c : ContainerOps OL L F O)
    (fullName : String) (options : OL) : L :=
  c.lookup fullName options

/-- Source `factoryFor(fullName, options = \x7b\x7d)` of the mixin: when the
options argument is omitted (`none`), the empty object is supplied; the call
is then forwarded to `this.__container__.factoryFor`. -/
def factoryFor {OL L F O : Type} (c : ContainerOps OL L F O)
    (fullName : String) (options : Option PropBag) : F :=
  c.factoryFor fullName (options.getD [])

/-- Source `ownerInjection()` of the mixin: it returns
`this.__container__.ownerInjection()`. -/
def ownerInjection {OL L F O : Type} (c : ContainerOps OL L F O) : O :=
  c.ownerInjection ()

/-- The observable events emitted by one `willDestroy` invocation:
the `_super` chain being invoked (with the forwarded arguments), and a
request to the run loop to schedule a container's `destroy`. -/
inductive TeardownEvent (Args : Type) where
  | superCall (args : Args)
  | scheduleDestroy (container : Nat)
deriving DecidableEq

/-- Whether an event is a request to schedule a container destroy. -/
def TeardownEvent.isScheduleDestroy {Args : Type} : TeardownEvent Args → Bool
  | .scheduleDestroy _ => true
  | .superCall _ => false

/-- Source `willDestroy()` of the mixin, embedded as the trace of events it
emits, in order: `this._super(...arguments)` runs first; then, only if
`this.__container__` is non-null (`some`), `run(this.__container__,
'destroy')` issues one scheduling request.  The whole trace is produced by
the single synchronous call. -/
def willDestroy {Args : Type} (args : Args) (container : Option Nat) :
    List (TeardownEvent Args) :=
  TeardownEvent.superCall args ::
    (match container with
     | some c => [TeardownEvent.scheduleDestroy c]
     | none => [])

/-- Errors the Container surfaces, per the specification's error design. -/
inductive ContainerError where
  | containerDestroyed
  | lookupError (fullName : String)
deriving DecidableEq, Repr

/-- Modelled from the spec: a Registration stored in the Registry maps an
identifier to a factory reference plus options (the `singleton` flag,
default true).  The factory is an opaque reference number. -/
structure Registration where
  factoryId : Nat
  singleton : Bool
deriving DecidableEq, Repr

/-- Modelled from the spec: the Registry is a mapping from string
identifiers to Registrations. -/
structure Registry where
  registrations : List (String × Registration)
deriving DecidableEq, Repr

/-- Modelled from the spec: `resolve(identifier)` returns the registered
factory and options, or signals absence with `none` (it never throws for
the normal not-registered case). -/
def Registry.resolve (r : Registry) (fullName : String) : Option Registration :=
  (r.registrations.find? (fun p => p.1 == fullName)).map (fun p => p.2)

/-- Modelled from the spec: the options bag returned by `ownerInjection`,
naming the owner the constructed instance will be associated with. -/
structure OwnerInjectionBag where
  owner : Nat
deriving DecidableEq, Repr

/-- Modelled from the spec: a FactoryManager is an ephemeral object bound to
the resolved Registration and the Container (its owner reference), carrying
the options it was created with; nothing is instantiated yet. -/
structure FactoryManager where
  fullName : String
  registration : Registration
  owner : Nat
  options : PropBag
deriving DecidableEq, Repr

/-- Modelled from the spec: a Container holds a non-owning reference to its
Registry, a reference to its owner, a lazily populated cache from identifier
to instance reference for singleton lookups, a supply of fresh instance
references, and a destroyed flag. -/
structure Container where
  registry : Registry
  owner : Nat
  cache : List (String × Nat)
  nextInstance : Nat
  isDestroyed : Bool
deriving DecidableEq, Repr

/-- Modelled from the spec: the Container's `lookup(identifier, options)`.
An omitted options argument defaults to singleton lookup.  Any operation on
a destroyed Container fails with `containerDestroyed`.  With
`singleton := false` a fresh instance is always constructed and never
cached; otherwise a cached instance is returned unchanged when present, and
a freshly constructed instance is cached and returned when not.  Resolving
an unregistered identifier fails with `lookupError`. -/
def Container.lookup (c : Container) (fullName : String)
    (options : Option LookupOptions) : Except ContainerError (Nat × Container) :=
  if c.isDestroyed then Except.error ContainerError.containerDestroyed
  else
    let opts := options.getD ⟨true⟩
    match c.registry.resolve fullName with
    | none => Except.error (ContainerError.lookupError fullName)
    | some _reg =>
      if opts.singleton = false then
        Except.ok (c.nextInstance, { c with nextInstance := c.nextInstance + 1 })
      else
        match c.cache.find? (fun p => p.1 == fullName) with
        | some p => Except.ok (p.2, c)
        | none =>
          Except.ok (c.nextInstance,
            { c with
                cache := (fullName, c.nextInstance) :: c.cache,
                nextInstance := c.nextInstance + 1 })

/-- Modelled from the spec: the Container's `factoryFor(identifier,
options)`: fails on a destroyed Container, fails the same way as `lookup`
when the identifier is unregistered, and otherwise returns a FactoryManager
bound to the Registration and this Container without instantiating and
without changing any Container state. -/
def Container.factoryFor (c : Container) (fullName : String)
    (options : PropBag) : Except ContainerError FactoryManager :=
  if c.isDestroyed then Except.error ContainerError.containerDestroyed
  else
    match c.registry.resolve fullName with
    | none => Except.error (ContainerError.lookupError fullName)
    | some reg => Except.ok ⟨fullName, reg, c.owner, options⟩

/-- Modelled from the spec: the Container's `ownerInjection()` is a pure
function of the Container's identity; it returns the options bag naming the
owner together with the (unchanged) Container state. -/
def Container.ownerInjection (c : Container) : OwnerInjectionBag × Container :=
  (⟨c.owner⟩, c)

/-- Modelled from the spec: the Container's `destroy()` invokes the destroy
hook of every cached singleton instance (returned here as the list of
destroyed instance references), clears the cache and marks the Container
destroyed. -/
def Container.destroy (c : Container) : List Nat × Container :=
  (c.cache.map (fun p => p.2), { c with cache := [], isDestroyed := true })

/-- Wiring of a concrete Container behind the proxy's abstract interface:
the proxy's `this.__container__` methods are exactly the Container's. -/
def Container.ops (c : Container) :
    ContainerOps (Option LookupOptions) (Except ContainerError (Nat × Container))
      (Except ContainerError FactoryManager) (OwnerInjectionBag × Container) :=
  ⟨c.lookup, c.factoryFor, fun _ => c.ownerInjection⟩

/-- A small concrete Registry for witnesses: one singleton registration. -/
def sampleRegistry : Registry :=
  ⟨[("api:twitter", ⟨0, true⟩)]⟩

/-- A fresh concrete Container over `sampleRegistry` for witnesses. -/
def sampleContainer : Container :=
  ⟨sampleRegistry, 7, [], 0, false⟩

/-- `sampleContainer` after its first singleton lookup cached instance 0. -/
def sampleContainerCached : Container :=
  ⟨sampleRegistry, 7, [("api:twitter", 0)], 1, false⟩

/-- `sampleContainer` after one non-singleton lookup: nothing cached. -/
def sampleFresh1 : Container :=
  ⟨sampleRegistry, 7, [], 1, false⟩

/-- `sampleContainer` after two non-singleton lookups: nothing cached. -/
def sampleFresh2 : Container :=
  ⟨sampleRegistry, 7, [], 2, false⟩

end ContainerProxy

namespace ContainerProxy

/-- C1: for every fullName and options, the proxy's `lookup(fullName,
options)`, `factoryFor(fullName, options)` and `ownerInjection()` return
exactly the value of the corresponding call on its `__container__`, with the
arguments forwarded unchanged and no other computation performed by the
proxy. -/
theorem proxy_forwards_verbatim {OL L F O : Type} (c : ContainerOps OL L F O)
    (fullName : String) (options : OL) (fOptions : PropBag) :
    ContainerProxy.lookup c fullName options = c.lookup fullName options ∧
    ContainerProxy.factoryFor c fullName (some fOptions) =
      c.factoryFor fullName fOptions ∧
    ContainerProxy.ownerInjection c = c.ownerInjection () :=
  ⟨rfl, rfl, rfl⟩

/-- C2: one `willDestroy` invocation schedules the Container's `destroy`
exactly once when a container is present (`__container__` non-null), and
schedules no destroy when no container is present. -/
theorem will_destroy_schedules_once {Args : Type} (args : Args)
    (container : Option Nat) :
    (willDestroy args container).countP TeardownEvent.isScheduleDestroy =
      (match container with | some _ => 1 | none => 0) := by
  cases container <;> rfl

/-- C3: within `willDestroy`, the `_super` chain — invoked with the same
arguments — is the first event of the trace and so completes before the
container destroy is scheduled, and the scheduling request itself is an
event of the same synchronous `willDestroy` trace, as its second and last
element. -/
theorem will_destroy_super_first {Args : Type} (args : Args) (cid : Nat) :
    willDestroy args (some cid) =
      [TeardownEvent.superCall args, TeardownEvent.scheduleDestroy cid] :=
  rfl

/-- C4: a lookup with the options argument omitted (the proxy forwards the
omitted argument unchanged, so the container receives `none`) behaves
exactly as a lookup with `singleton := true`. -/
theorem lookup_omitted_options_defaults_singleton (c : Container)
    (fullName : String) :
    ContainerProxy.lookup c.ops fullName none =
      Container.lookup c fullName (some ⟨true⟩) :=
  rfl

/-- C5: when `factoryFor` is called on the proxy with the options argument
omitted, the empty object is supplied as the options value passed on to the
container's `factoryFor`. -/
theorem factory_for_omitted_options_empty {OL L F O : Type}
    (c : ContainerOps OL L F O) (fullName : String) :
    ContainerProxy.factoryFor c fullName none = c.factoryFor fullName [] :=
  rfl

/-- C6: for an identifier registered as a singleton on a not-yet-destroyed
Container, repeated singleton lookups return the identical instance
reference: after a successful lookup yielding instance `i` and state `c1`,
looking the identifier up again on `c1` yields the same reference `i` (and
changes nothing). -/
theorem singleton_lookup_stable (c : Container) (fullName : String)
    (reg : Registration) (hreg : c.registry.resolve fullName = some reg)
    (hsing : reg.singleton = true) (i : Nat) (c1 : Container)
    (h : Container.lookup c fullName none = Except.ok (i, c1)) :
    Container.lookup c1 fullName none = Except.ok (i, c1) := by
  by_cases hd : c.isDestroyed = true
  · simp [Container.lookup, hd] at h
  · cases hfind : c.cache.find? (fun p => p.1 == fullName) with
    | some p =>
      simp [Container.lookup, hd, hreg, hfind] at h
      obtain ⟨hi, hc⟩ := h
      subst hi
      subst hc
      simp [Container.lookup, hd, hreg, hfind]
    | none =>
      simp [Container.lookup, hd, hreg, hfind] at h
      obtain ⟨hi, hc⟩ := h
      subst hi
      subst hc
      simp [Container.lookup, hd, hreg]

/-- Witness for C6: on a concrete fresh container with a singleton
registration, the first lookup constructs and caches instance 0, and the
second lookup returns the identical reference 0. -/
theorem singleton_lookup_stable_witness :
    Container.lookup sampleContainer "api:twitter" none =
      Except.ok (0, sampleContainerCached) ∧
    Container.lookup sampleContainerCached "api:twitter" none =
      Except.ok (0, sampleContainerCached) :=
  ⟨rfl,
   singleton_lookup_stable sampleContainer "api:twitter" ⟨0, true⟩
     (by decide) rfl 0 sampleContainerCached rfl⟩

/-- C7: two successive lookups with `singleton := false` on the same
Container return two distinct instance references, and neither lookup
touches the singleton cache. -/
theorem nonsingleton_lookup_fresh (c : Container) (fullName : String)
    (i1 i2 : Nat) (c1 c2 : Container)
    (h1 : Container.lookup c fullName (some ⟨false⟩) = Except.ok (i1, c1))
    (h2 : Container.lookup c1 fullName (some ⟨false⟩) = Except.ok (i2, c2)) :
    i1 ≠ i2 ∧ c1.cache = c.cache ∧ c2.cache = c1.cache := by
  by_cases hd : c.isDestroyed = true
  · simp [Container.lookup, hd] at h1
  · cases hres : c.registry.resolve fullName with
    | none => simp [Container.lookup, hd, hres] at h1
    | some reg =>
      simp [Container.lookup, hd, hres] at h1
      obtain ⟨hi1, hc1⟩ := h1
      subst hi1
      subst hc1
      simp [Container.lookup, hd, hres] at h2
      obtain ⟨hi2, hc2⟩ := h2
      subst hi2
      subst hc2
      exact ⟨by omega, rfl, rfl⟩

/-- Witness for C7: on the concrete fresh container, two non-singleton
lookups return references 0 and 1 (distinct) and leave the cache empty. -/
theorem nonsingleton_lookup_fresh_witness :
    (0 : Nat) ≠ 1 ∧ sampleFresh1.cache = sampleContainer.cache ∧
      sampleFresh2.cache = sampleFresh1.cache :=
  nonsingleton_lookup_fresh sampleContainer "api:twitter" 0 1
    sampleFresh1 sampleFresh2 rfl rfl

/-- C8: after `destroy()` has run on a Container, every subsequent `lookup`
or `factoryFor` call on that Container fails with the
container-destroyed error. -/
theorem destroyed_container_rejects_calls (c : Container) (fullName : String)
    (options : Option LookupOptions) (fOptions : PropBag) :
    Container.lookup (c.destroy).2 fullName options =
      Except.error ContainerError.containerDestroyed ∧
    Container.factoryFor (c.destroy).2 fullName fOptions =
      Except.error ContainerError.containerDestroyed :=
  ⟨rfl, rfl⟩

/-- C9: `ownerInjection` is deterministic and side-effect-free: it leaves
the Container state unchanged, two successive calls return structurally
equal results, the result names the Container's owner, and the proxy call
returns exactly the container's result. -/
theorem owner_injection_pure (c : Container) :
    (Container.ownerInjection c).2 = c ∧
    (Container.ownerInjection c).1 =
      (Container.ownerInjection (Container.ownerInjection c).2).1 ∧
    (Container.ownerInjection c).1.owner = c.owner ∧
    ContainerProxy.ownerInjection c.ops = Container.ownerInjection c :=
  ⟨rfl, rfl, rfl, rfl⟩

/-- C10: when `__container__` is absent (its default value `null`),
`willDestroy` still completes, producing only the `_super` event, and
schedules no container destruction. -/
theorem will_destroy_safe_without_container {Args : Type} (args : Args) :
    willDestroy args none = [TeardownEvent.superCall args] ∧
    (willDestroy args none).countP TeardownEvent.isScheduleDestroy = 0 :=
  ⟨rfl, rfl⟩

end ContainerProxy
